import Mathlib

/-!
Formal model of the restaurant-reservation REST API
(Sharik27/taller-node-js-deployment): a shallow embedding of the
middlewares, services and controllers that the specification describes,
with theorems settling the specification claims C1 through C10.

Conventions of the embedding:
- JavaScript strings that are parsed character by character (the
  Authorization header) are `List Char`; all other strings are `String`.
- MongoDB collections are Lean lists of document structures; a document
  id is a `String`, and a lookup by a syntactically malformed id raises
  the CastError that mongoose raises, modelled as a `JsError.cast` value.
- Thrown JavaScript errors are values of `JsError`; a fallible operation
  returns `Except JsError`.
- The external `jsonwebtoken` library is modelled as an ideal MAC: a
  signed token is a pair of its payload and the signing secret, and
  verification succeeds exactly against that secret.  The external
  `bcrypt` library is modelled as an ideal hash: comparison succeeds
  exactly on the original plaintext.
- Express response objects accumulate a list of attempted
  `status(..).json(..)` writes; handlers that return after one write
  produce a single `HttpResponse`.
-/

/-- A thrown JavaScript error, as the controllers discriminate them:
`ReferenceError` (the domain-existence signal the services throw),
mongoose `CastError` (malformed ObjectId), and anything else. -/
inductive JsError where
  | reference (msg : String)
  | cast (msg : String)
  | other (msg : String)
  deriving DecidableEq, Repr

/-- True exactly for the errors that satisfy the controllers'
`error instanceof ReferenceError` test. -/
def JsError.isReference : JsError → Bool
  | .reference _ => true
  | _ => false

/-- A bcrypt-stored password: either the ideal hash of a plaintext
(`bcrypt.hash(plain, 10)`), or a raw string stored without hashing
(which the real library would reject as an invalid hash on compare). -/
inductive StoredPassword where
  | hashed (plain : String)
  | rawString (s : String)
  deriving DecidableEq, Repr

/-- `bcrypt.compare(password, stored)` under the ideal-hash model:
true exactly when `stored` is the hash of `password`. -/
def bcryptCompare (password : String) : StoredPassword → Bool
  | .hashed q => password = q
  | .rawString _ => false

/-- A document of the `users` collection (src/unnamed/part_004, userSchema):
name, unique email, select-false password, roles (default `[user]`),
`deletedAt` null when active. -/
structure UserDoc where
  id : String
  name : String
  email : String
  password : StoredPassword
  roles : List String
  deletedAt : Option Nat
  deriving DecidableEq, Repr

/-- A document of the `restaurants` collection (src/unnamed/part_004,
restaurantSchema). -/
structure RestaurantDoc where
  id : String
  name : String
  address : String
  city : String
  nit : String
  phone : String
  deletedAt : Option Nat
  deriving DecidableEq, Repr

/-- A document of the `reservations` collection (src/unnamed/part_003,
reservationSchema). -/
structure ReservationDoc where
  id : String
  date : String
  hour : String
  restaurantId : String
  userId : String
  userQuantity : Int
  status : String
  deletedAt : Option Nat
  deriving DecidableEq, Repr

/-- Payload of a JSON Web Token as this API signs it: `{id, roles}`
(src/src/types via src/unnamed/part_001). -/
structure JwtPayload where
  id : String
  roles : List String
  deriving DecidableEq, Repr

/-- A signed token under the ideal-MAC model of `jsonwebtoken`:
the payload together with the secret it was signed with. -/
structure SignedToken where
  payload : JwtPayload
  signedWith : String
  deriving DecidableEq, Repr

/-- `jwt.sign(payload, secret)` under the ideal-MAC model. -/
def jwtSign (p : JwtPayload) (secret : String) : SignedToken := ⟨p, secret⟩

/-- `jwt.verify(token, secret)` under the ideal-MAC model: returns the
payload exactly when `secret` is the signing secret, otherwise fails
(returns `none`, standing for the thrown verification error). -/
def jwtVerifyTok (t : SignedToken) (secret : String) : Option JwtPayload :=
  if t.signedWith = secret then some t.payload else none

/-- `UserLoginOutput` (src/src/interfaces/auth.interface.ts): what
`AuthService.login` returns, the signed token nested beside id/roles. -/
structure LoginOutput where
  id : String
  roles : List String
  token : SignedToken
  deriving DecidableEq, Repr

/-- One field entry of the aggregated validation-error list
(src/src/tests/middlewares/handle.middleware.test.ts format). -/
structure FieldError where
  field : String
  message : String
  deriving DecidableEq, Repr

/-- The JSON body of one `res.json(..)` call, by shape. -/
inductive ResBody where
  | message (text : String)
  | raw (e : JsError)
  | restaurantDoc (r : RestaurantDoc)
  | reservationDoc (r : ReservationDoc)
  | userDoc (u : UserDoc)
  | loginToken (t : LoginOutput)
  | validationErrors (errors : List FieldError)
  | empty
  deriving DecidableEq, Repr

/-- True exactly for response bodies that carry a `token` field. -/
def ResBody.hasTokenField : ResBody → Bool
  | .loginToken _ => true
  | _ => false

/-- One attempted `res.status(s).json(b)` (or `.send()`) write. -/
structure HttpResponse where
  status : Nat
  body : ResBody
  deriving DecidableEq, Repr

/-- The JavaScript value found in the `roles` property of `req.user`:
absent (`undefined`), present but not an array, or an array of role
strings.  (A falsy non-array such as the empty string takes the same
denial branch as a truthy non-array, with the same message, so the
embedding does not distinguish them.) -/
inductive JsRolesField where
  | missing
  | nonArray (v : String)
  | array (roles : List String)
  deriving DecidableEq, Repr

/-- The `req.user` object that `authMiddleware` attaches, as `checkRole`
reads it back (duck-typed, so `roles` may have any shape). -/
structure JsReqUser where
  id : String
  roles : JsRolesField
  deriving DecidableEq, Repr

/-- Outcome of a gate middleware: forward the request (`next()`) or
terminate it with a status and message. -/
inductive RoleGateResult where
  | next
  | deny (status : Nat) (message : String)
  deriving DecidableEq, Repr

/-- `checkRole` (src/src/middlewares/preAuthorize.middleware.ts):
denies 403 "Access denied. No roles found." when `req.user` is absent or
its `roles` property is absent/falsy or not an array; denies 403
"Access denied." when `roles` is an array not containing the required
role; otherwise calls `next()`.  Note that a present empty array passes
the first guard (an empty array is truthy in JavaScript). -/
def checkRole (requiredRole : String) (user : Option JsReqUser) : RoleGateResult :=
  match user with
  | none => .deny 403 "Access denied. No roles found."
  | some u =>
    match u.roles with
    | .missing => .deny 403 "Access denied. No roles found."
    | .nonArray _ => .deny 403 "Access denied. No roles found."
    | .array rs =>
      if requiredRole ∈ rs then .next
      else .deny 403 "Access denied."

/-- JavaScript `s.split(sep)` for a one-character separator: the list of
chunks between occurrences of `sep`, never empty (the empty string
splits to `[""]`). -/
def jsSplitOn (sep : Char) : List Char → List (List Char)
  | [] => [[]]
  | c :: rest =>
    match jsSplitOn sep rest with
    | [] => [[c]]
    | h :: t => if c = sep then [] :: h :: t else (c :: h) :: t

/-- The token string `authMiddleware` extracts and passes to
`jwt.verify`: `req.headers.authorization?.split(' ')[1]`, with the falsy
values (`undefined` and the empty string) collapsed to `none` by the
`if (!token)` guard.  The leading chunk is never inspected, so any
scheme — not only "Bearer" — yields its second chunk. -/
def tokenPassedToVerify (authorization : Option (List Char)) : Option (List Char) :=
  match authorization.bind (fun s => (jsSplitOn ' ' s)[1]?) with
  | none => none
  | some [] => none
  | some t => some t

/-- Outcome of `authMiddleware`: attach the decoded payload and forward,
or terminate with a status and message. -/
inductive AuthGateResult where
  | next (payload : JwtPayload)
  | deny (status : Nat) (message : String)
  deriving DecidableEq, Repr

/-- JavaScript `env || dflt`: the fallback also fires on the empty
string, which is falsy. -/
def jsOrDefault (env : Option String) (dflt : String) : String :=
  match env with
  | none => dflt
  | some s => if s = "" then dflt else s

/-- `authMiddleware` (src/src/middlewares/auth.middleware.ts): extract
the second space-separated chunk of the Authorization header; missing or
blank token gives 401 "Access denied. No token provided."; otherwise
verify it against `process.env.JWT_SECRET || 'defaultSecret'`, attaching
the payload on success and giving 403 "Invalid token." on any
verification failure.  `verify` abstracts `jwt.verify` on the raw token
string. -/
def authMiddleware (verify : List Char → String → Option JwtPayload)
    (env : Option String) (authorization : Option (List Char)) : AuthGateResult :=
  match tokenPassedToVerify authorization with
  | none => .deny 401 "Access denied. No token provided."
  | some t =>
    match verify t (jsOrDefault env "defaultSecret") with
    | some payload => .next payload
    | none => .deny 403 "Invalid token."

/-- `AuthService.generateToken` (src/unnamed/part_002): signs the payload
`{id: user.id, roles: user.roles}` with `process.env.JWT_SECRET ||
'defaultSecret'`.  (The one-hour expiry rides along in the real token;
the ideal-MAC model carries no clock.) -/
def AuthService.generateToken (env : Option String) (user : UserDoc) : SignedToken :=
  jwtSign ⟨user.id, user.roles⟩ (jsOrDefault env "defaultSecret")

/-- `UserService.findByEmail` (src/unnamed/part_003):
`UserModel.findOne({email})`; the `select` argument only toggles whether
the password projection is included, which the document model keeps. -/
def UserService.findByEmail (db : List UserDoc) (email : String) : Option UserDoc :=
  db.find? (fun u => u.email = email)

/-- `UserLoginInput` (src/src/interfaces/auth.interface.ts). -/
structure UserLoginInput where
  email : String
  password : String
  deriving DecidableEq, Repr

/-- `AuthService.login` (src/unnamed/part_002): throws
`ReferenceError("Not Authorized")` when no user carries the email or the
bcrypt comparison fails; otherwise returns `{id, roles, token}` with a
freshly signed token. -/
def AuthService.login (env : Option String) (db : List UserDoc)
    (input : UserLoginInput) : Except JsError LoginOutput :=
  match UserService.findByEmail db input.email with
  | none => .error (.reference "Not Authorized")
  | some u =>
    if bcryptCompare input.password u.password then
      .ok ⟨u.id, u.roles, AuthService.generateToken env u⟩
    else
      .error (.reference "Not Authorized")

/-- `AuthController.login` (src/unnamed/part_005): on success
`res.json({token})` — status 200 with the service output nested under
the `token` key; a `ReferenceError` maps to 401 with its message (with
an early return); any other error maps to 500 with the fixed body
`{message: "Internal server error"}`. -/
def AuthController.login (outcome : Except JsError LoginOutput) : HttpResponse :=
  match outcome with
  | .ok out => ⟨200, .loginToken out⟩
  | .error (.reference m) => ⟨401, .message m⟩
  | .error _ => ⟨500, .message "Internal server error"⟩

/-- True for characters of a hexadecimal digit, the alphabet of a
MongoDB ObjectId string. -/
def isHexChar (c : Char) : Bool :=
  (decide ('0' ≤ c) && decide (c ≤ '9'))
  || (decide ('a' ≤ c) && decide (c ≤ 'f'))
  || (decide ('A' ≤ c) && decide (c ≤ 'F'))

/-- A syntactically valid MongoDB ObjectId: 24 hexadecimal characters
(what `param(..).isMongoId()` accepts and what mongoose can cast). -/
def isMongoId (s : String) : Bool :=
  s.data.length = 24 && s.data.all isHexChar

/-- `Model.findById(id)` in mongoose: rejects with a CastError when the
id is not castable to an ObjectId, and otherwise resolves with the
matching document or `null` — with no filter on any other field, in
particular none on `deletedAt`. -/
def findByIdE (getId : α → String) (db : List α) (id : String) :
    Except JsError (Option α) :=
  if isMongoId id then .ok (db.find? (fun x => getId x = id))
  else .error (.cast "Cast to ObjectId failed")

/-- `RestaurantService.getAll` (src/src/services/restaurant.service.ts):
`RestaurantModel.find({deletedAt: null})`. -/
def RestaurantService.getAll (db : List RestaurantDoc) : List RestaurantDoc :=
  db.filter (fun r => r.deletedAt = none)

/-- `RestaurantService.getById` (src/src/services/restaurant.service.ts):
`RestaurantModel.findById(id)` — no `deletedAt` filter. -/
def RestaurantService.getById (db : List RestaurantDoc) (id : String) :
    Except JsError (Option RestaurantDoc) :=
  findByIdE RestaurantDoc.id db id

/-- `UserService.getAll` (src/unnamed/part_003):
`UserModel.find({deletedAt: null})`. -/
def UserService.getAll (db : List UserDoc) : List UserDoc :=
  db.filter (fun u => u.deletedAt = none)

/-- `UserService.getById` (src/unnamed/part_003):
`UserModel.findById(id)` — no `deletedAt` filter. -/
def UserService.getById (db : List UserDoc) (id : String) :
    Except JsError (Option UserDoc) :=
  findByIdE UserDoc.id db id

/-- `ReservationService.getAll` (src/src/services/reservation.service.ts):
`ReservationModel.find({deletedAt: null})` with display joins
(`populate`), which do not change which documents are selected. -/
def ReservationService.getAll (db : List ReservationDoc) : List ReservationDoc :=
  db.filter (fun v => v.deletedAt = none)

/-- `ReservationService.getById` (src/src/services/reservation.service.ts):
`ReservationModel.findById(id)` with display joins — no `deletedAt`
filter. -/
def ReservationService.getById (db : List ReservationDoc) (id : String) :
    Except JsError (Option ReservationDoc) :=
  findByIdE ReservationDoc.id db id

/-- A concrete soft-deleted restaurant document with a valid ObjectId. -/
def softDeletedRestaurant : RestaurantDoc :=
  ⟨"0123456789abcdef01234567", "La Mesa", "Calle 1", "Cali", "900123", "555", some 5⟩

/-- `ReservationInput` (src/unnamed/part_008): the body the controller
hands to `ReservationService.create`. -/
structure ReservationInput where
  date : String
  hour : String
  restaurantId : String
  userId : String
  userQuantity : Int
  status : String
  deriving DecidableEq, Repr

/-- The three collections the reservation create path touches. -/
structure Store where
  users : List UserDoc
  restaurants : List RestaurantDoc
  reservations : List ReservationDoc
  deriving DecidableEq, Repr

deriving instance DecidableEq for Except

/-- What one run of `ReservationService.create` produced: the value or
error, the reservations collection afterwards, and whether the
restaurant lookup was ever issued. -/
structure ReservationCreateOutcome where
  result : Except JsError ReservationDoc
  reservationsAfter : List ReservationDoc
  restaurantLookupPerformed : Bool
  deriving DecidableEq, Repr

/-- `ReservationService.create` (src/src/services/reservation.service.ts):
first `UserModel.findById(input.userId)` — a miss throws
`ReferenceError("User not found")` before the restaurant reference is
consulted; then `RestaurantModel.findById(input.restaurantId)` — a miss
throws `ReferenceError("Restaurant not found")`; only then
`ReservationModel.create` inserts the document (`newId` stands for the
id the store mints, `deletedAt` defaulting to null). -/
def ReservationService.create (st : Store) (input : ReservationInput)
    (newId : String) : ReservationCreateOutcome :=
  match findByIdE UserDoc.id st.users input.userId with
  | .error e => ⟨.error e, st.reservations, false⟩
  | .ok none => ⟨.error (.reference "User not found"), st.reservations, false⟩
  | .ok (some _) =>
    match findByIdE RestaurantDoc.id st.restaurants input.restaurantId with
    | .error e => ⟨.error e, st.reservations, true⟩
    | .ok none => ⟨.error (.reference "Restaurant not found"), st.reservations, true⟩
    | .ok (some _) =>
      let doc : ReservationDoc :=
        ⟨newId, input.date, input.hour, input.restaurantId, input.userId,
          input.userQuantity, input.status, none⟩
      ⟨.ok doc, st.reservations ++ [doc], true⟩

/-- `RestaurantController.create`
(src/src/controllers/restaurant.controller.ts), as the list of writes
its catch block attempts: on success one 201 write; on a
`ReferenceError` the 400 short-message write is NOT followed by a
return, so the handler falls through and also attempts the 500 write
carrying the raw error; on any other error only the 500 write. -/
def RestaurantController.createWrites (outcome : Except JsError RestaurantDoc) :
    List HttpResponse :=
  match outcome with
  | .ok r => [⟨201, .restaurantDoc r⟩]
  | .error e =>
    match e with
    | .reference _ => [⟨400, .message "Restaurant already exist"⟩, ⟨500, .raw e⟩]
    | _ => [⟨500, .raw e⟩]

/-- `ReservationController.create` (src/unnamed/part_004), as the list
of writes its catch block attempts: same missing-return fall-through as
the restaurant controller, with the message
"Restaurant or User not found". -/
def ReservationController.createWrites (outcome : Except JsError ReservationDoc) :
    List HttpResponse :=
  match outcome with
  | .ok r => [⟨201, .reservationDoc r⟩]
  | .error e =>
    match e with
    | .reference _ => [⟨400, .message "Restaurant or User not found"⟩, ⟨500, .raw e⟩]
    | _ => [⟨500, .raw e⟩]

/-- The raw JSON body of `POST /api/reservations` as validation sees it:
every field a string, reference ids included. -/
structure ReservationReqBody where
  date : String
  hour : String
  userQuantity : String
  status : String
  restaurantId : String
  userId : String
  deriving DecidableEq, Repr

/-- The express-validator library primitives the reservation rules call
(library code, external to the repository, hence abstract): ISO-8601
date test, length bounds, the hour pattern of the rule chain
(a 12-hour clock time followed by AM or PM), integer-greater-than-one
test with its conversion, and trimming. -/
structure ExpressValidatorLib where
  isISO8601 : String → Bool
  isLength : Nat → Nat → String → Bool
  matchesHourPattern : String → Bool
  isIntGtOne : String → Bool
  toInt : String → Int
  trim : String → String

/-- `reservationValidations.create` (src/unnamed/part_006): the ordered
error list the four rule chains collect.  The rules name only `date`,
`hour`, `userQuantity` and `status` — no rule mentions `restaurantId`
or `userId`. -/
def reservationCreateFieldErrors (lib : ExpressValidatorLib)
    (b : ReservationReqBody) : List FieldError :=
  (if lib.isISO8601 b.date then [] else [⟨"date", "Date must be a valid date"⟩])
  ++ ((if lib.isLength 1 20 (lib.trim b.hour) then []
        else [⟨"hour", "Hour must be between 1 and 20 characters"⟩])
      ++ (if lib.matchesHourPattern (lib.trim b.hour) then []
        else [⟨"hour", "Please provide a valid hour"⟩]))
  ++ (if lib.isIntGtOne b.userQuantity then []
        else [⟨"userQuantity", "User quantity must be greater than 1"⟩])
  ++ (if lib.isLength 1 15 (lib.trim b.status) then []
        else [⟨"status", "Status must be between 1 and 15 characters"⟩])

/-- Modelled from the spec: `handleValidationErrors`
(src/src/middlewares/handle.middleware.ts is absent from the sources;
only its test src/src/tests/middlewares/handle.middleware.test.ts is
present).  Spec section 4.2 and section 7: on a non-empty error list the
request is terminated with a single aggregated 400 response carrying the
ordered error list; on an empty list the request is forwarded
unchanged. -/
def handleValidationErrors (errors : List FieldError) : Option HttpResponse :=
  match errors with
  | [] => none
  | es => some ⟨400, .validationErrors es⟩

/-- The body fields the sanitizers leave for the controller, bundled as
the service input (trim on hour and status, toInt on userQuantity). -/
def ReservationReqBody.toInput (lib : ExpressValidatorLib)
    (b : ReservationReqBody) : ReservationInput :=
  ⟨b.date, lib.trim b.hour, b.restaurantId, b.userId,
    lib.toInt b.userQuantity, b.status⟩

/-- The `POST /api/reservations` pipeline after the authorization gates:
the validation chain, then the controller calling
`ReservationService.create`, mapped to the attempted response writes. -/
def reservationCreatePipeline (lib : ExpressValidatorLib) (st : Store)
    (b : ReservationReqBody) (newId : String) : List HttpResponse :=
  match handleValidationErrors (reservationCreateFieldErrors lib b) with
  | some resp => [resp]
  | none =>
    ReservationController.createWrites
      (ReservationService.create st (b.toInput lib) newId).result

/-- Replace the first element satisfying `p` by its image under `f`,
leaving the rest unchanged: the effect of a mongoose
`findByIdAndUpdate`/`findOneAndUpdate` write on the collection. -/
def updateFirst (p : α → Bool) (f : α → α) : List α → List α
  | [] => []
  | x :: xs => if p x then f x :: xs else x :: updateFirst p f xs

/-- `RestaurantService.delete` (src/src/services/restaurant.service.ts):
`RestaurantModel.findByIdAndUpdate(id, {deletedAt: new Date()})` — the
match is by `_id` alone, with no condition on the current `deletedAt`,
so an already soft-deleted document still matches and its timestamp is
overwritten with the current time; returns whether a document
matched. -/
def RestaurantService.delete (db : List RestaurantDoc) (id : String)
    (now : Nat) : Except JsError (Bool × List RestaurantDoc) :=
  if isMongoId id then
    match db.find? (fun r => r.id = id) with
    | none => .ok (false, db)
    | some _ =>
      .ok (true, updateFirst (fun r => r.id = id)
        (fun r => { r with deletedAt := some now }) db)
  else .error (.cast "Cast to ObjectId failed")

/-- `RestaurantController.delete`
(src/src/controllers/restaurant.controller.ts): `deleted` false gives
404 with the not-found message (and returns), true gives 204 with an
empty body; a thrown error gives 500 with the raw error. -/
def RestaurantController.deleteResponse (id : String)
    (outcome : Except JsError Bool) : HttpResponse :=
  match outcome with
  | .ok false => ⟨404, .message ("Restaurant with id " ++ id ++ " not found")⟩
  | .ok true => ⟨204, .empty⟩
  | .error e => ⟨500, .raw e⟩

/-- The `DELETE /api/restaurants/:id` endpoint after the gates: run the
service delete at the given clock time and map the outcome. -/
def restaurantDeleteEndpoint (db : List RestaurantDoc) (id : String)
    (now : Nat) : HttpResponse × List RestaurantDoc :=
  match RestaurantService.delete db id now with
  | .ok (deleted, db2) => (RestaurantController.deleteResponse id (.ok deleted), db2)
  | .error e => (RestaurantController.deleteResponse id (.error e), db)

/-- The runtime JSON body of `PUT /api/users/:id`: the declared
`UserInputUpdate` type covers only name and email, but the request body
is forwarded as-is, so the schema fields `password` and `roles` can also
arrive. -/
structure UserUpdateBody where
  name : Option String
  email : Option String
  password : Option String
  roles : Option (List String)
  deriving DecidableEq, Repr

/-- The effect of `UserModel.findOneAndUpdate({_id: id}, body)` on one
document: every schema field present in the body is written — a raw
password string is stored verbatim (no hashing happens on the update
path). -/
def applyUserUpdate (b : UserUpdateBody) (u : UserDoc) : UserDoc :=
  { u with
    name := b.name.getD u.name
    email := b.email.getD u.email
    password := (b.password.map StoredPassword.rawString).getD u.password
    roles := b.roles.getD u.roles }

/-- `UserService.update` (src/unnamed/part_003):
`UserModel.findOneAndUpdate({_id: id}, userInput, {returnOriginal:
false})` — returns the post-update document or null; the body is passed
through without stripping any field. -/
def UserService.update (db : List UserDoc) (id : String) (b : UserUpdateBody) :
    Except JsError (Option UserDoc × List UserDoc) :=
  if isMongoId id then
    match db.find? (fun u => u.id = id) with
    | none => .ok (none, db)
    | some u =>
      .ok (some (applyUserUpdate b u),
        updateFirst (fun x => x.id = id) (applyUserUpdate b) db)
  else .error (.cast "Cast to ObjectId failed")

/-- The express-validator primitives the user rules call (external
library code, abstract). -/
structure UserValidatorLib where
  isLength : Nat → Nat → String → Bool
  matchesNamePattern : String → Bool
  isEmail : String → Bool
  trim : String → String
  normalizeEmail : String → String

/-- `userValidations.update` (src/src/validators/user.validator.ts): the
two optional rule chains, on `name` and `email` only; a rule whose field
is absent contributes nothing, and no rule reads `password` or
`roles`. -/
def userUpdateFieldErrors (lib : UserValidatorLib) (b : UserUpdateBody) :
    List FieldError :=
  (match b.name with
    | none => []
    | some n =>
      (if lib.isLength 2 50 (lib.trim n) then []
        else [⟨"name", "Name must be between 2 and 50 characters"⟩])
      ++ (if lib.matchesNamePattern (lib.trim n) then []
        else [⟨"name", "Name can only contain letters and spaces"⟩]))
  ++ (match b.email with
    | none => []
    | some e =>
      if lib.isEmail e then []
      else [⟨"email", "Please provide a valid email address"⟩])

/-- A concrete stored user for the claim C2 counterexample. -/
def storedUserC2 : UserDoc :=
  ⟨"00000000000000000000000a", "Ana", "ana@x.co", .hashed "Secret1", ["user"], none⟩

/-- Claim C1 (counterexample): the claim states that a principal whose
user has `roles: []` is denied with message
"Access denied. No roles found.", but `checkRole "admin"` on the
concrete principal `{id := "u1", roles := []}` denies with the other
message, "Access denied." — an empty array is truthy in JavaScript, so
it passes the no-roles guard and falls through to the membership
check. -/
theorem checkRole_emptyRoles_counterexample :
    checkRole "admin" (some ⟨"u1", .array []⟩)
      ≠ .deny 403 "Access denied. No roles found."
    ∧ checkRole "admin" (some ⟨"u1", .array []⟩)
      = .deny 403 "Access denied." := by
  refine ⟨?_, rfl⟩
  decide

/-- Claim C1 (amended): for every request principal, `checkRole "admin"`
denies a principal whose user has `roles: []` with 403 and message
"Access denied." (the same message as a principal with
`roles: ["user"]`); the message "Access denied. No roles found." is
produced for a principal whose user is absent, or whose `roles` property
is missing or not an array; and the two denial messages are distinct. -/
theorem checkRole_admin_denials (uid : String) (v : String) :
    checkRole "admin" (some ⟨uid, .array []⟩) = .deny 403 "Access denied."
    ∧ checkRole "admin" (some ⟨uid, .array ["user"]⟩) = .deny 403 "Access denied."
    ∧ checkRole "admin" none = .deny 403 "Access denied. No roles found."
    ∧ checkRole "admin" (some ⟨uid, .missing⟩) = .deny 403 "Access denied. No roles found."
    ∧ checkRole "admin" (some ⟨uid, .nonArray v⟩) = .deny 403 "Access denied. No roles found."
    ∧ "Access denied. No roles found." ≠ "Access denied." := by
  refine ⟨rfl, rfl, rfl, rfl, rfl, ?_⟩
  decide

theorem jsSplitOn_ne_nil (sep : Char) (l : List Char) : jsSplitOn sep l ≠ [] := by
  cases l with
  | nil => simp [jsSplitOn]
  | cons c rest =>
    simp only [jsSplitOn]
    cases jsSplitOn sep rest with
    | nil => simp
    | cons h t =>
      by_cases hc : c = sep <;> simp [hc]

theorem jsSplitOn_no_sep (sep : Char) (a : List Char) (ha : sep ∉ a) :
    jsSplitOn sep a = [a] := by
  induction a with
  | nil => rfl
  | cons c rest ih =>
    have hc : c ≠ sep := fun h => ha (h ▸ List.mem_cons_self c rest)
    have hrest : sep ∉ rest := fun h => ha (List.mem_cons_of_mem c h)
    simp [jsSplitOn, ih hrest, hc]

theorem jsSplitOn_sep_append (sep : Char) (a b : List Char) (ha : sep ∉ a) :
    jsSplitOn sep (a ++ sep :: b) = a :: jsSplitOn sep b := by
  induction a with
  | nil =>
    simp only [List.nil_append, jsSplitOn]
    cases hb : jsSplitOn sep b with
    | nil => exact absurd hb (jsSplitOn_ne_nil sep b)
    | cons h t => simp
  | cons c rest ih =>
    have hc : c ≠ sep := fun h => ha (h ▸ List.mem_cons_self c rest)
    have hrest : sep ∉ rest := fun h => ha (List.mem_cons_of_mem c h)
    show (match jsSplitOn sep (rest ++ sep :: b) with
      | [] => [[c]]
      | h :: t => if c = sep then [] :: h :: t else (c :: h) :: t)
      = (c :: rest) :: jsSplitOn sep b
    rw [ih hrest]
    simp [hc]

/-- Claim C3 (counterexample): the claim states that a header that does
not carry the case-sensitive "Bearer" prefix yields no token to verify,
but the concrete header "Basic alice:secret" yields the token
"alice:secret", which the middleware does pass to verification (the
repository's own middleware test exercises exactly this header and
expects `jwt.verify` to be called). -/
theorem tokenPassedToVerify_basic_counterexample :
    tokenPassedToVerify (some ("Basic alice:secret".toList))
      = some ("alice:secret".toList)
    ∧ authMiddleware
        (fun t _ => if t = "alice:secret".toList then some ⟨"u1", ["user"]⟩ else none)
        none (some ("Basic alice:secret".toList))
      = .next ⟨"u1", ["user"]⟩ := by
  decide

/-- Claim C3 (amended): the token `authMiddleware` verifies is the
second single-space-separated chunk of the Authorization header,
whatever the scheme chunk is — for a header carrying the case-sensitive
"Bearer " prefix this is exactly the string after that prefix up to the
next space, but a non-Bearer scheme yields its second chunk all the
same; a missing or blank token produces 401
"Access denied. No token provided.", distinct from the 403
"Invalid token." produced when verification of a present token fails. -/
theorem authMiddleware_token_extraction
    (scheme t : List Char) (verify : List Char → String → Option JwtPayload)
    (env : Option String)
    (hs : ' ' ∉ scheme) (ht : ' ' ∉ t) (hne : t ≠ []) :
    tokenPassedToVerify (some (scheme ++ ' ' :: t)) = some t
    ∧ (∀ p, verify t (jsOrDefault env "defaultSecret") = some p →
        authMiddleware verify env (some (scheme ++ ' ' :: t)) = .next p)
    ∧ (verify t (jsOrDefault env "defaultSecret") = none →
        authMiddleware verify env (some (scheme ++ ' ' :: t))
          = .deny 403 "Invalid token.")
    ∧ authMiddleware verify env none
        = .deny 401 "Access denied. No token provided."
    ∧ authMiddleware verify env (some (scheme ++ [' ']))
        = .deny 401 "Access denied. No token provided."
    ∧ AuthGateResult.deny 401 "Access denied. No token provided."
        ≠ AuthGateResult.deny 403 "Invalid token." := by
  have hsplit : jsSplitOn ' ' (scheme ++ ' ' :: t) = scheme :: jsSplitOn ' ' t :=
    jsSplitOn_sep_append ' ' scheme t hs
  have htok : tokenPassedToVerify (some (scheme ++ ' ' :: t)) = some t := by
    simp only [tokenPassedToVerify, Option.bind, hsplit, jsSplitOn_no_sep ' ' t ht]
    cases t with
    | nil => exact absurd rfl hne
    | cons c cs => rfl
  have hblank : tokenPassedToVerify (some (scheme ++ [' '])) = none := by
    have h2 : jsSplitOn ' ' (scheme ++ [' ']) = scheme :: jsSplitOn ' ' [] :=
      jsSplitOn_sep_append ' ' scheme [] hs
    simp [tokenPassedToVerify, h2, jsSplitOn]
  refine ⟨htok, ?_, ?_, rfl, ?_, by simp⟩
  · intro p hp
    simp [authMiddleware, htok, hp]
  · intro hp
    simp [authMiddleware, htok, hp]
  · simp [authMiddleware, hblank]

/-- Claim C3 (witness for the amended theorem), at the concrete header
"Bearer tok1" with a verifier accepting exactly "tok1". -/
theorem authMiddleware_token_extraction_witness :
    tokenPassedToVerify (some ("Bearer".toList ++ ' ' :: "tok1".toList))
      = some ("tok1".toList) := by
  exact (authMiddleware_token_extraction "Bearer".toList "tok1".toList
    (fun _ _ => none) none (by decide) (by decide) (by decide)).1

/-- Claim C7: a token produced by `generateToken` when no environment
secret is set is signed with the fixed default secret, verifies
successfully against that same default secret, round-trips to the same
id and roles, and fails verification against any other secret. -/
theorem generateToken_default_roundtrip (u : UserDoc) (s : String)
    (hs : s ≠ "defaultSecret") :
    jwtVerifyTok (AuthService.generateToken none u) "defaultSecret"
      = some ⟨u.id, u.roles⟩
    ∧ jwtVerifyTok (AuthService.generateToken none u) s = none := by
  constructor
  · rfl
  · simp only [AuthService.generateToken, jwtSign, jsOrDefault, jwtVerifyTok]
    rw [if_neg (fun h => hs h.symm)]

/-- Claim C7 (witness), at the payload `{id: "u1", roles: ["user"]}` of
the specification scenario and the distinct secret "otherSecret". -/
theorem generateToken_default_roundtrip_witness :
    jwtVerifyTok
      (AuthService.generateToken none ⟨"u1", "n", "e", .hashed "p", ["user"], none⟩)
      "defaultSecret" = some ⟨"u1", ["user"]⟩
    ∧ jwtVerifyTok
      (AuthService.generateToken none ⟨"u1", "n", "e", .hashed "p", ["user"], none⟩)
      "otherSecret" = none :=
  generateToken_default_roundtrip ⟨"u1", "n", "e", .hashed "p", ["user"], none⟩
    "otherSecret" (by decide)

/-- Claim C8: a login with correct credentials answers 200 with the
token value nested under the `token` key (`{token: {id, roles, token}}`,
not flattened); an unknown email or a non-matching password answers 401
with a body that carries no token field; and any non-`ReferenceError`
failure answers 500 with the fixed generic message rather than the raw
error. -/
theorem authLogin_responses (env : Option String) (db : List UserDoc)
    (input : UserLoginInput) :
    (∀ u, UserService.findByEmail db input.email = some u →
      bcryptCompare input.password u.password = true →
      AuthController.login (AuthService.login env db input)
        = ⟨200, .loginToken ⟨u.id, u.roles, AuthService.generateToken env u⟩⟩)
    ∧ (UserService.findByEmail db input.email = none →
      AuthController.login (AuthService.login env db input)
        = ⟨401, .message "Not Authorized"⟩)
    ∧ (∀ u, UserService.findByEmail db input.email = some u →
      bcryptCompare input.password u.password = false →
      AuthController.login (AuthService.login env db input)
        = ⟨401, .message "Not Authorized"⟩)
    ∧ (ResBody.message "Not Authorized").hasTokenField = false
    ∧ (∀ e : JsError, e.isReference = false →
      AuthController.login (.error e) = ⟨500, .message "Internal server error"⟩) := by
  refine ⟨?_, ?_, ?_, rfl, ?_⟩
  · intro u hu hpw
    simp [AuthService.login, AuthController.login, hu, hpw]
  · intro hu
    simp [AuthService.login, AuthController.login, hu]
  · intro u hu hpw
    simp [AuthService.login, AuthController.login, hu, hpw]
  · intro e he
    cases e with
    | reference m => simp [JsError.isReference] at he
    | cast m => rfl
    | other m => rfl

/-- Claim C8 (witness): the three login outcomes at a concrete one-user
store — correct credentials, unknown email, wrong password — and a
concrete non-reference failure. -/
theorem authLogin_responses_witness :
    AuthController.login (AuthService.login none
        [⟨"u1", "Carlos", "admin@example.com", .hashed "Carlos123", ["admin"], none⟩]
        ⟨"admin@example.com", "Carlos123"⟩)
      = ⟨200, .loginToken ⟨"u1", ["admin"],
          AuthService.generateToken none
            ⟨"u1", "Carlos", "admin@example.com", .hashed "Carlos123", ["admin"], none⟩⟩⟩
    ∧ AuthController.login (AuthService.login none
        [⟨"u1", "Carlos", "admin@example.com", .hashed "Carlos123", ["admin"], none⟩]
        ⟨"nobody@example.com", "x"⟩)
      = ⟨401, .message "Not Authorized"⟩
    ∧ AuthController.login (AuthService.login none
        [⟨"u1", "Carlos", "admin@example.com", .hashed "Carlos123", ["admin"], none⟩]
        ⟨"admin@example.com", "wrong"⟩)
      = ⟨401, .message "Not Authorized"⟩
    ∧ AuthController.login (.error (.other "Database connection error"))
      = ⟨500, .message "Internal server error"⟩ := by
  refine ⟨?_, ?_, ?_, ?_⟩
  · exact (authLogin_responses none
      [⟨"u1", "Carlos", "admin@example.com", .hashed "Carlos123", ["admin"], none⟩]
      ⟨"admin@example.com", "Carlos123"⟩).1
      ⟨"u1", "Carlos", "admin@example.com", .hashed "Carlos123", ["admin"], none⟩
      (by decide) (by decide)
  · exact (authLogin_responses none
      [⟨"u1", "Carlos", "admin@example.com", .hashed "Carlos123", ["admin"], none⟩]
      ⟨"nobody@example.com", "x"⟩).2.1 (by decide)
  · exact (authLogin_responses none
      [⟨"u1", "Carlos", "admin@example.com", .hashed "Carlos123", ["admin"], none⟩]
      ⟨"admin@example.com", "wrong"⟩).2.2.1
      ⟨"u1", "Carlos", "admin@example.com", .hashed "Carlos123", ["admin"], none⟩
      (by decide) (by decide)
  · exact (authLogin_responses none [] ⟨"", ""⟩).2.2.2.2
      (.other "Database connection error") rfl

/-- Claim C5 (counterexample): the claim states that every get-by-id
read except the reservation one excludes soft-deleted records, but
`RestaurantService.getById` on a store holding one soft-deleted
restaurant returns that record — `findById` carries no `deletedAt`
filter in any of the three services. -/
theorem restaurantGetById_softDeleted_counterexample :
    softDeletedRestaurant.deletedAt ≠ none
    ∧ RestaurantService.getById [softDeletedRestaurant] "0123456789abcdef01234567"
        = .ok (some softDeletedRestaurant) := by
  constructor
  · decide
  · have h : isMongoId "0123456789abcdef01234567" = true := by decide
    simp [RestaurantService.getById, findByIdE, h, List.find?, softDeletedRestaurant]

/-- Claim C5 (amended): for every entity (user, restaurant,
reservation), `getAll` returns only records whose soft-delete timestamp
is null; but none of the get-by-id reads filters on the soft-delete
timestamp — the restaurant and user lookups behave exactly like the
reservation lookup, and each can return a soft-deleted record. -/
theorem getAll_filters_getById_does_not
    (udb : List UserDoc) (rdb : List RestaurantDoc) (vdb : List ReservationDoc)
    (u : UserDoc) (r : RestaurantDoc) (v : ReservationDoc)
    (hu : isMongoId u.id = true) (hr : isMongoId r.id = true)
    (hv : isMongoId v.id = true)
    (hud : u.deletedAt ≠ none) (hrd : r.deletedAt ≠ none)
    (hvd : v.deletedAt ≠ none) :
    (∀ x ∈ UserService.getAll udb, x.deletedAt = none)
    ∧ (∀ x ∈ RestaurantService.getAll rdb, x.deletedAt = none)
    ∧ (∀ x ∈ ReservationService.getAll vdb, x.deletedAt = none)
    ∧ UserService.getById [u] u.id = .ok (some u)
    ∧ RestaurantService.getById [r] r.id = .ok (some r)
    ∧ ReservationService.getById [v] v.id = .ok (some v) := by
  refine ⟨?_, ?_, ?_, ?_, ?_, ?_⟩
  · intro x hx
    exact of_decide_eq_true (List.mem_filter.mp hx).2
  · intro x hx
    exact of_decide_eq_true (List.mem_filter.mp hx).2
  · intro x hx
    exact of_decide_eq_true (List.mem_filter.mp hx).2
  · simp [UserService.getById, findByIdE, hu, List.find?]
  · simp [RestaurantService.getById, findByIdE, hr, List.find?]
  · simp [ReservationService.getById, findByIdE, hv, List.find?]

/-- Claim C5 (witness for the amended theorem), at concrete one-record
stores each holding a soft-deleted document. -/
theorem getAll_filters_getById_does_not_witness :
    UserService.getById
        [⟨"00000000000000000000000a", "N", "e@x", .hashed "p", ["user"], some 3⟩]
        "00000000000000000000000a"
      = .ok (some ⟨"00000000000000000000000a", "N", "e@x", .hashed "p", ["user"], some 3⟩)
    ∧ RestaurantService.getById [softDeletedRestaurant] softDeletedRestaurant.id
      = .ok (some softDeletedRestaurant)
    ∧ ReservationService.getById
        [⟨"00000000000000000000000b", "2024-12-25", "07:30PM",
          "0123456789abcdef01234567", "00000000000000000000000a", 4, "pending", some 9⟩]
        "00000000000000000000000b"
      = .ok (some ⟨"00000000000000000000000b", "2024-12-25", "07:30PM",
          "0123456789abcdef01234567", "00000000000000000000000a", 4, "pending", some 9⟩) := by
  have h := getAll_filters_getById_does_not [] [] []
    ⟨"00000000000000000000000a", "N", "e@x", .hashed "p", ["user"], some 3⟩
    softDeletedRestaurant
    ⟨"00000000000000000000000b", "2024-12-25", "07:30PM",
      "0123456789abcdef01234567", "00000000000000000000000a", 4, "pending", some 9⟩
    (by decide) (by decide) (by decide) (by decide) (by decide) (by decide)
  exact ⟨h.2.2.2.1, h.2.2.2.2.1, h.2.2.2.2.2⟩

/-- Claim C6: for every reservation create input, a missing user
reference fails with "User not found" without the restaurant reference
being consulted; a present user with a missing restaurant reference
fails with "Restaurant not found"; and in either failure case the
reservations collection is unchanged. -/
theorem reservationCreate_checks_user_then_restaurant
    (st : Store) (input : ReservationInput) (newId : String) :
    (findByIdE UserDoc.id st.users input.userId = .ok none →
      ReservationService.create st input newId
        = ⟨.error (.reference "User not found"), st.reservations, false⟩)
    ∧ (∀ u, findByIdE UserDoc.id st.users input.userId = .ok (some u) →
      findByIdE RestaurantDoc.id st.restaurants input.restaurantId = .ok none →
      ReservationService.create st input newId
        = ⟨.error (.reference "Restaurant not found"), st.reservations, true⟩) := by
  constructor
  · intro hu
    simp [ReservationService.create, hu]
  · intro u hu hr
    simp [ReservationService.create, hu, hr]

/-- Claim C6 (witness): a store with no users (user miss), and a store
with one user but no restaurants (restaurant miss). -/
theorem reservationCreate_checks_user_then_restaurant_witness :
    ReservationService.create ⟨[], [], []⟩
        ⟨"2024-12-25", "07:30PM", "0123456789abcdef01234567",
          "00000000000000000000000a", 4, "pending"⟩ "00000000000000000000000b"
      = ⟨.error (.reference "User not found"), [], false⟩
    ∧ ReservationService.create
        ⟨[⟨"00000000000000000000000a", "N", "e@x", .hashed "p", ["user"], none⟩], [], []⟩
        ⟨"2024-12-25", "07:30PM", "0123456789abcdef01234567",
          "00000000000000000000000a", 4, "pending"⟩ "00000000000000000000000b"
      = ⟨.error (.reference "Restaurant not found"), [], true⟩ := by
  constructor
  · exact (reservationCreate_checks_user_then_restaurant ⟨[], [], []⟩
      ⟨"2024-12-25", "07:30PM", "0123456789abcdef01234567",
        "00000000000000000000000a", 4, "pending"⟩ "00000000000000000000000b").1
      (by decide)
  · exact (reservationCreate_checks_user_then_restaurant
      ⟨[⟨"00000000000000000000000a", "N", "e@x", .hashed "p", ["user"], none⟩], [], []⟩
      ⟨"2024-12-25", "07:30PM", "0123456789abcdef01234567",
        "00000000000000000000000a", 4, "pending"⟩ "00000000000000000000000b").2
      ⟨"00000000000000000000000a", "N", "e@x", .hashed "p", ["user"], none⟩
      (by decide) (by decide)

/-- Claim C4 (evaluation at the failing input): when the service throws
the domain existence `ReferenceError`, both create handlers attempt TWO
writes — the 400 short-message write and then, for lack of a `return`
after it, the 500 write carrying the raw error — contradicting the
claim that exactly one response is emitted and no 500 follows.  (On the
wire only the first write reaches the client, because headers are
already sent; the sibling handlers return after their error writes, so
the missing `return` here is a slip.) -/
theorem createWrites_referenceError_double_write :
    RestaurantController.createWrites (.error (.reference "Restaurant already exist"))
      = [⟨400, .message "Restaurant already exist"⟩,
         ⟨500, .raw (.reference "Restaurant already exist")⟩]
    ∧ ReservationController.createWrites (.error (.reference "User not found"))
      = [⟨400, .message "Restaurant or User not found"⟩,
         ⟨500, .raw (.reference "User not found")⟩]
    ∧ (RestaurantController.createWrites
        (.error (.reference "Restaurant already exist"))).length ≠ 1
    ∧ (ReservationController.createWrites
        (.error (.reference "User not found"))).length ≠ 1 := by
  refine ⟨rfl, rfl, ?_, ?_⟩ <;> decide

/-- Claim C9: the reservation create validation rules never inspect
`restaurantId` or `userId` — the error list is unchanged under any
rewriting of those two fields — so a body whose four validated fields
pass but whose user reference id is syntactically malformed passes
validation, reaches the service `findById` lookup, and the resulting
cast failure is answered with a single 500 write carrying the raw
error, not a 400 validation failure. -/
theorem reservationCreatePipeline_malformed_id_500
    (lib : ExpressValidatorLib) (st : Store) (b : ReservationReqBody)
    (newId x y : String)
    (hv : reservationCreateFieldErrors lib b = [])
    (hm : isMongoId b.userId = false) :
    reservationCreateFieldErrors lib
        { b with restaurantId := x, userId := y }
      = reservationCreateFieldErrors lib b
    ∧ reservationCreatePipeline lib st b newId
      = [⟨500, .raw (.cast "Cast to ObjectId failed")⟩]
    ∧ ∀ resp ∈ reservationCreatePipeline lib st b newId, resp.status ≠ 400 := by
  have hlookup : findByIdE UserDoc.id st.users (b.toInput lib).userId
      = .error (.cast "Cast to ObjectId failed") := by
    simp [findByIdE, ReservationReqBody.toInput, hm]
  have hpipe : reservationCreatePipeline lib st b newId
      = [⟨500, .raw (.cast "Cast to ObjectId failed")⟩] := by
    simp [reservationCreatePipeline, hv, handleValidationErrors,
      ReservationService.create, hlookup, ReservationController.createWrites]
  refine ⟨rfl, hpipe, ?_⟩
  intro resp hresp
  rw [hpipe] at hresp
  simp at hresp
  rw [hresp]
  decide

/-- Claim C9 (witness): a library valuation whose checks accept the
given body, an empty store, and the malformed reference id "not-an-id"
passing through to a single 500 write. -/
theorem reservationCreatePipeline_malformed_id_500_witness :
    reservationCreatePipeline
        ⟨fun _ => true, fun _ _ _ => true, fun _ => true, fun _ => true,
          fun _ => 4, fun s => s⟩
        ⟨[], [], []⟩
        ⟨"2024-12-25", "07:30PM", "4", "pending", "also-not-an-id", "not-an-id"⟩
        "00000000000000000000000b"
      = [⟨500, .raw (.cast "Cast to ObjectId failed")⟩] :=
  (reservationCreatePipeline_malformed_id_500
    ⟨fun _ => true, fun _ _ _ => true, fun _ => true, fun _ => true,
      fun _ => 4, fun s => s⟩
    ⟨[], [], []⟩
    ⟨"2024-12-25", "07:30PM", "4", "pending", "also-not-an-id", "not-an-id"⟩
    "00000000000000000000000b" "x" "y" rfl (by decide)).2.1

theorem find?_updateFirst (p : α → Bool) (f : α → α)
    (hpf : ∀ a, p a = true → p (f a) = true) (l : List α) (a : α)
    (h : l.find? p = some a) :
    (updateFirst p f l).find? p = some (f a) := by
  induction l with
  | nil => simp [List.find?] at h
  | cons x xs ih =>
    by_cases hx : p x = true
    · rw [List.find?_cons_of_pos _ hx] at h
      cases h
      simp [updateFirst, hx, List.find?_cons_of_pos _ (hpf a hx)]
    · have hx0 : p x = false := by
        cases hpx : p x with
        | true => exact absurd hpx hx
        | false => rfl
      rw [List.find?_cons_of_neg _ (by simp [hx0])] at h
      simp only [updateFirst, hx0]
      rw [if_neg (by simp)]
      rw [List.find?_cons_of_neg _ (by simp [hx0])]
      exact ih h

/-- Claim C10: deleting an id that matches a stored restaurant — even
one already soft-deleted — returns true and overwrites `deletedAt` with
the current time, so a repeated HTTP DELETE on the same existing id
answers 204 with an empty body every time, never 404: the soft-delete
timestamp is not stable under repetition. -/
theorem restaurantDelete_overwrites_timestamp
    (db : List RestaurantDoc) (id : String) (r : RestaurantDoc) (t1 t2 : Nat)
    (hid : isMongoId id = true)
    (hfind : db.find? (fun x => x.id = id) = some r) :
    ∃ db1 db2,
      restaurantDeleteEndpoint db id t1 = (⟨204, .empty⟩, db1)
      ∧ db1.find? (fun x => x.id = id) = some { r with deletedAt := some t1 }
      ∧ restaurantDeleteEndpoint db1 id t2 = (⟨204, .empty⟩, db2)
      ∧ db2.find? (fun x => x.id = id) = some { r with deletedAt := some t2 } := by
  have hpf : ∀ now : Nat, ∀ a : RestaurantDoc,
      (decide (a.id = id)) = true →
      (decide (({ a with deletedAt := some now } : RestaurantDoc).id = id)) = true := by
    intro now a ha
    exact ha
  refine ⟨updateFirst (fun x => x.id = id)
      (fun x => { x with deletedAt := some t1 }) db,
    updateFirst (fun x => x.id = id) (fun x => { x with deletedAt := some t2 })
      (updateFirst (fun x => x.id = id)
        (fun x => { x with deletedAt := some t1 }) db), ?_, ?_, ?_, ?_⟩
  · simp [restaurantDeleteEndpoint, RestaurantService.delete, hid, hfind,
      RestaurantController.deleteResponse]
  · exact find?_updateFirst _ _ (hpf t1) db r hfind
  · have hfind1 := find?_updateFirst (fun x => decide (x.id = id))
      (fun x => { x with deletedAt := some t1 }) (hpf t1) db r hfind
    simp [restaurantDeleteEndpoint, RestaurantService.delete, hid, hfind1,
      RestaurantController.deleteResponse]
  · have hfind1 := find?_updateFirst (fun x => decide (x.id = id))
      (fun x => { x with deletedAt := some t1 }) (hpf t1) db r hfind
    exact find?_updateFirst (fun x => decide (x.id = id))
      (fun x => { x with deletedAt := some t2 }) (hpf t2) _
      ({ r with deletedAt := some t1 }) hfind1

/-- Claim C10 (witness): double DELETE on a one-restaurant store whose
record is already soft-deleted; both rounds answer 204 and the stored
timestamp ends at the second clock value. -/
theorem restaurantDelete_overwrites_timestamp_witness :
    ∃ db1 db2,
      restaurantDeleteEndpoint [softDeletedRestaurant]
          "0123456789abcdef01234567" 7 = (⟨204, .empty⟩, db1)
      ∧ db1.find? (fun x => x.id = "0123456789abcdef01234567")
          = some { softDeletedRestaurant with deletedAt := some 7 }
      ∧ restaurantDeleteEndpoint db1 "0123456789abcdef01234567" 9
          = (⟨204, .empty⟩, db2)
      ∧ db2.find? (fun x => x.id = "0123456789abcdef01234567")
          = some { softDeletedRestaurant with deletedAt := some 9 } :=
  restaurantDelete_overwrites_timestamp [softDeletedRestaurant]
    "0123456789abcdef01234567" softDeletedRestaurant 7 9
    (by decide) (by decide)

/-- Claim C2 (counterexample): the claim states that the roles and
password of the stored user are unchanged by the update path regardless
of the request body, but the concrete body `{roles: ["admin"]}` passes
through `findOneAndUpdate` and the stored roles change from `["user"]`
to `["admin"]`; likewise a body `{password: "plain"}` overwrites the
stored hash with the raw string. -/
theorem userUpdate_body_changes_roles_counterexample :
    UserService.update [storedUserC2] "00000000000000000000000a"
        ⟨none, none, none, some ["admin"]⟩
      = .ok (some { storedUserC2 with roles := ["admin"] },
             [{ storedUserC2 with roles := ["admin"] }])
    ∧ ({ storedUserC2 with roles := ["admin"] }).roles ≠ storedUserC2.roles
    ∧ (applyUserUpdate ⟨none, none, some "plain", none⟩ storedUserC2).password
      ≠ storedUserC2.password := by
  refine ⟨by decide, by decide, by decide⟩

/-- Claim C2 (amended): the update path writes exactly the schema fields
the request body carries — when the body holds only name and email (the
shape the declared update type and the validator cover), the stored
roles and password are unchanged, and the validator never reads roles or
password; but a body that does carry `roles` or `password` overwrites
those stored fields, so they are client-mutable after all. -/
theorem userUpdate_writes_what_body_carries
    (db : List UserDoc) (id : String) (b : UserUpdateBody) (u : UserDoc)
    (hb1 : b.roles = none) (hb2 : b.password = none)
    (hid : isMongoId id = true)
    (hfind : db.find? (fun x => x.id = id) = some u) :
    (applyUserUpdate b u).roles = u.roles
    ∧ (applyUserUpdate b u).password = u.password
    ∧ UserService.update db id b
      = .ok (some (applyUserUpdate b u),
          updateFirst (fun x => x.id = id) (applyUserUpdate b) db)
    ∧ (∀ rs, (applyUserUpdate ⟨b.name, b.email, b.password, some rs⟩ u).roles = rs)
    ∧ (∀ pw, (applyUserUpdate ⟨b.name, b.email, some pw, b.roles⟩ u).password
        = .rawString pw)
    ∧ (∀ lib rs pw,
        userUpdateFieldErrors lib ⟨b.name, b.email, pw, rs⟩
          = userUpdateFieldErrors lib b) := by
  refine ⟨?_, ?_, ?_, ?_, ?_, ?_⟩
  · simp [applyUserUpdate, hb1]
  · simp [applyUserUpdate, hb2]
  · simp [UserService.update, hid, hfind]
  · intro rs
    simp [applyUserUpdate]
  · intro pw
    simp [applyUserUpdate]
  · intro lib rs pw
    rfl

/-- Claim C2 (witness for the amended theorem): a name-and-email-only
body against a one-user store. -/
theorem userUpdate_writes_what_body_carries_witness :
    (applyUserUpdate ⟨some "Bea", some "bea@x.co", none, none⟩ storedUserC2).roles
      = storedUserC2.roles
    ∧ (applyUserUpdate ⟨some "Bea", some "bea@x.co", none, none⟩
        storedUserC2).password = storedUserC2.password := by
  have h := userUpdate_writes_what_body_carries [storedUserC2]
    "00000000000000000000000a" ⟨some "Bea", some "bea@x.co", none, none⟩
    storedUserC2 rfl rfl (by decide) (by decide)
  exact ⟨h.1, h.2.1⟩
